import Mathlib

/-!
Verification development for the fund-holdings query scripts
(`scripts/query_fund_holdings.py`, `scripts/fund_holdings_main.py`).

The Python code is shallowly embedded: pure string/arithmetic logic is
translated directly; the two HTTP calls and the regular-expression
searches over the response bodies are modelled by passing their observed
outcome (status code, response text, extracted match groups) as explicit
inputs.  Python floats are modelled by exact rationals (`Rat`).
-/

namespace FundHoldings

/-! ## Character-level string primitives (Python `str` operations) -/

/-- Python whitespace characters stripped by `float(...)` (ASCII subset). -/
def isPyWS (c : Char) : Bool :=
  c = ' ' || c = '\t' || c = '\n' || c = '\r' || c = '\x0b' || c = '\x0c'

/-- Strip leading and trailing whitespace, as Python `str.strip()` does
before `float(...)` parses a literal. -/
def stripWS (s : List Char) : List Char :=
  ((s.dropWhile isPyWS).reverse.dropWhile isPyWS).reverse

/-- Value of a digit string, most significant first. -/
def digitsToNat (ds : List Char) : Nat :=
  ds.foldl (fun a c => a * 10 + (c.toNat - '0'.toNat)) 0

/-- Exponent suffix of a Python float literal: optional sign then digits,
nothing may follow.  `m` is the already-parsed mantissa. -/
def parseExp (r : List Char) (m : Rat) : Option Rat :=
  let p : Int × List Char :=
    match r with
    | '+' :: t => (1, t)
    | '-' :: t => (-1, t)
    | t => (1, t)
  let ds := p.2.takeWhile Char.isDigit
  let rest := p.2.dropWhile Char.isDigit
  if ds.isEmpty || !rest.isEmpty then none
  else if p.1 = 1 then some (m * (10 : Rat) ^ digitsToNat ds)
  else some (m / (10 : Rat) ^ digitsToNat ds)

/-- Unsigned part of a Python float literal: `digits [. digits] [exp]`,
with at least one digit in the integer or fractional part. -/
def parseUnsigned (t : List Char) : Option Rat :=
  let intds := t.takeWhile Char.isDigit
  let r1 := t.dropWhile Char.isDigit
  let fr : List Char × List Char :=
    match r1 with
    | '.' :: rr => (rr.takeWhile Char.isDigit, rr.dropWhile Char.isDigit)
    | _ => ([], r1)
  let hasDot : Bool := match r1 with | '.' :: _ => true | _ => false
  if intds.isEmpty && (!hasDot || fr.1.isEmpty) then none
  else
    let m : Rat :=
      (digitsToNat intds : Rat) + (digitsToNat fr.1 : Rat) / (10 : Rat) ^ fr.1.length
    match fr.2 with
    | [] => some m
    | c :: r3 => if c = 'e' || c = 'E' then parseExp r3 m else none

/-- Embedding of Python `float(s)`: strip whitespace, optional sign,
decimal literal with optional fraction and exponent.  (Python's `inf`,
`nan`, underscore and non-ASCII digit forms are outside the inputs this
program produces and are not modelled.)  Returns `none` where `float`
raises `ValueError`. -/
def parseFloat (s : List Char) : Option Rat :=
  match stripWS s with
  | '+' :: r => parseUnsigned r
  | '-' :: r => (parseUnsigned r).map Neg.neg
  | r => parseUnsigned r

/-- Absolute value on `Rat`, used for digit extraction when formatting. -/
def ratAbs (x : Rat) : Rat := if x < 0 then -x else x

/-- Round a nonnegative rational to the nearest integer, ties to even —
the rounding Python's `format(x, '.2f')` applies (here on the exact
value, since floats are modelled by rationals). -/
def natRoundHE (q : Rat) : Nat :=
  let n := q.num.toNat / q.den
  let f := q - (n : Rat)
  if f < 1 / 2 then n
  else if 1 / 2 < f then n + 1
  else if n % 2 = 0 then n else n + 1

/-- Embedding of Python `f"{x:.2f}"`: sign of the value, then the
magnitude rounded to two decimal places. -/
def fmt2 (x : Rat) : String :=
  let m := natRoundHE (100 * ratAbs x)
  (if x < 0 then "-" else "")
    ++ toString (m / 100) ++ "."
    ++ (if m % 100 < 10 then "0" ++ toString (m % 100) else toString (m % 100))

/-- The signed-percentage rendering used by both
`get_stock_price_change` and `calculate_fund_estimate`
(query_fund_holdings.py lines 58-61 and 103-106): explicit `+` for
non-negative values, natural `-` otherwise, two decimal places. -/
def signedPct (x : Rat) : String :=
  if 0 ≤ x then "+" ++ fmt2 x ++ "%" else fmt2 x ++ "%"

/-- `s.startswith(c)` for a single-character needle: first character
equals `c`. -/
def startsWithChar (s : String) (c : Char) : Bool :=
  match s.data with
  | [] => false
  | d :: _ => d == c

/-- Split on `'~'`, keeping empty segments — Python `str.split('~')`. -/
def splitTilde : List Char → List (List Char)
  | [] => [[]]
  | c :: cs =>
    let r := splitTilde cs
    if c = '~' then [] :: r
    else
      match r with
      | [] => [[c]]
      | x :: xs => (c :: x) :: xs

/-- Longest prefix free of `'\x22'` (the double-quote character),
together with the remainder. -/
def splitNonQuote : List Char → List Char × List Char
  | [] => ([], [])
  | c :: cs =>
    if c = '\x22' then ([], c :: cs)
    else
      let p := splitNonQuote cs
      (c :: p.1, p.2)

/-- First match of the pattern quote–nonempty-run–quote, as
`re.search(r'\x22([^\x22]+)\x22', data)` finds it (query_fund_holdings.py
line 46): the captured run of non-quote characters, or `none`. -/
def firstQuoted : List Char → Option (List Char)
  | [] => none
  | c :: cs =>
    if c = '\x22' then
      match splitNonQuote cs with
      | (r, '\x22' :: _) => if r.isEmpty then firstQuoted cs else some r
      | _ => firstQuoted cs
    else firstQuoted cs

/-! ## PriceChangeFetcher: `get_stock_price_change` (lines 13-66) -/

/-- Outcome of the quote-endpoint HTTP GET when a response arrived. -/
structure QuoteResp where
  status : Nat
  text : String
deriving DecidableEq

/-- Observable behaviour of `get_stock_price_change`: the returned
string, whether an HTTP request was issued, and the symbol requested.
The two extra fields instrument the network side effect so that
"no network call is made" is statable. -/
structure FetchOutcome where
  change : String
  requested : Bool
  symbol : Option String
deriving DecidableEq

/-- The response-processing part of `get_stock_price_change`
(lines 39-66): `none` models a raised network error or timeout
(swallowed by the enclosing `except`), otherwise the status check,
quoted-record search, tilde split, length check, and numeric parse of
the index-5 field. -/
def quoteChange (net : Option QuoteResp) : String :=
  match net with
  | none => "--"
  | some r =>
    if r.status ≠ 200 then "--"
    else
      match firstQuoted r.text.data with
      | none => "--"
      | some rec =>
        let values := splitTilde rec
        if values.length < 6 then "--"
        else
          match parseFloat (values.getD 5 []) with
          | none => "--"
          | some x => signedPct x

/-- One quote request: builds `symbol = f"s_{market}{stock_code}"`
(line 33) and processes the endpoint's outcome. -/
def fetchQuote (stock_code mkt : String) (net : Option QuoteResp) : FetchOutcome :=
  { change := quoteChange net
    requested := true
    symbol := some ("s_" ++ mkt ++ stock_code) }

/-- Embedding of `get_stock_price_change` (lines 13-66): market routing
on the leading character, then the quote request; codes routed to
neither market return the sentinel with no request made. -/
def get_stock_price_change (stock_code : String) (net : Option QuoteResp) : FetchOutcome :=
  if startsWithChar stock_code '6' then fetchQuote stock_code "sh" net
  else if startsWithChar stock_code '0' || startsWithChar stock_code '3' then
    fetchQuote stock_code "sz" net
  else { change := "--", requested := false, symbol := none }

/-! ## EstimateCalculator: `calculate_fund_estimate` (lines 68-106) -/

/-- A holding record as built by `get_fund_holdings` (lines 155-160). -/
structure Holding where
  stock_code : String
  stock_name : String
  proportion : Rat
  change_percent : String
deriving DecidableEq

/-- Python `change_str.replace('+', '').replace('%', '')` (line 91):
each `replace` with an empty replacement removes every occurrence. -/
def stripPlusPct (s : List Char) : List Char :=
  (s.filter (· != '+')).filter (· != '%')

/-- Loop body of `calculate_fund_estimate` (lines 81-95): skip the
sentinel, otherwise parse the cleaned change string; on success add the
proportion to the weight accumulator and the weighted change to the
change accumulator, on `ValueError` skip. -/
def estStep (acc : Rat × Rat) (h : Holding) : Rat × Rat :=
  if h.change_percent = "--" then acc
  else
    match parseFloat (stripPlusPct h.change_percent.data) with
    | none => acc
    | some v => (acc.1 + h.proportion, acc.2 + h.proportion * v)

/-- Embedding of `calculate_fund_estimate` (lines 68-106). -/
def calculate_fund_estimate (holdings : List Holding) : String :=
  let p := holdings.foldl estStep (0, 0)
  if p.1 = 0 then "无法预测（无有效涨跌数据）"
  else signedPct (p.2 / p.1)

/-- The parsed change of a holding when it is usable: `none` exactly
when the change string is the sentinel or fails numeric parsing. -/
def usableChange (h : Holding) : Option Rat :=
  if h.change_percent = "--" then none
  else parseFloat (stripPlusPct h.change_percent.data)

/-- Contribution of one holding to the two accumulators:
`(proportion, proportion × parsed change)` when usable. -/
def contrib (h : Holding) : Option (Rat × Rat) :=
  (usableChange h).map (fun v => (h.proportion, h.proportion * v))

/-- Spec's `total_weight = Σ proportion` over the usable holdings. -/
def totalWeight (l : List Holding) : Rat :=
  ((l.filterMap contrib).map Prod.fst).sum

/-- Spec's `weighted_sum = Σ (proportion × parsed_change)` over the
usable holdings. -/
def weightedChange (l : List Holding) : Rat :=
  ((l.filterMap contrib).map Prod.snd).sum

/-- Follows the spec's words (§4.3 EstimateCalculator): sum weight and
weighted change over usable holdings; if the total weight is zero
return the fixed cannot-estimate message, else format the weighted
average with the signed-percentage convention.  Stated separately from
`calculate_fund_estimate` so that agreement can be proved. -/
def estimateSpec (l : List Holding) : String :=
  if totalWeight l = 0 then "无法预测（无有效涨跌数据）"
  else signedPct (weightedChange l / totalWeight l)

/-! ## HoldingsFetcher: `get_fund_holdings` (lines 108-172) -/

/-- One tuple produced by `re.findall` with the holdings row pattern
(line 147): captured stock code, stock name, weight percentage string,
and trailing market-value string. -/
structure RawRow where
  code : String
  name : String
  proportionStr : String
  marketValue : String
deriving DecidableEq

/-- Outcome of the fund-archive HTTP GET plus the three regular
expression extractions over its body (lines 131-149): the status code,
the optional fund-name capture, the optional report-date capture, and
the row tuples found.  The regex searches themselves are modelled by
their observed match results. -/
structure HoldingsPage where
  status : Nat
  fundNameMatch : Option String
  dateMatch : Option String
  rows : List RawRow
deriving DecidableEq

/-- Python slice `l[:n]` for an `int` bound `n`: a nonnegative bound
takes the first `n` elements; a negative bound drops the last `-n`. -/
def pySliceTo (l : List α) (n : Int) : List α :=
  if 0 ≤ n then l.take n.toNat
  else l.take ((l.length : Int) + n).toNat

/-- The rows `get_fund_holdings` keeps: `matches[:top_n]` after
`top_n = min(top_n, 20)` (lines 125 and 151). -/
def effectiveRows (rows : List RawRow) (top_n : Int) : List RawRow :=
  pySliceTo rows (min top_n 20)

/-- Loop of lines 151-160: per kept row, fetch the price change and
build the holding dict with `float(proportion)`; a `ValueError` from
the conversion propagates to the enclosing `except` (whole result
`None`), modelled by `none`. -/
def buildHoldings (fetch : String → String) : List RawRow → Option (List Holding)
  | [] => some []
  | r :: rs =>
    match parseFloat r.proportionStr.data with
    | none => none
    | some x =>
      (buildHoldings fetch rs).map
        (fun hs => { stock_code := r.code, stock_name := r.name,
                     proportion := x, change_percent := fetch r.code } :: hs)

/-- Fund identity block of the report. -/
structure FundInfo where
  name : String
  code : String
deriving DecidableEq

/-- The report dict returned by `get_fund_holdings` (lines 165-169). -/
structure FundReport where
  fund_info : FundInfo
  report_date : String
  holdings : List Holding
deriving DecidableEq

/-- Embedding of `get_fund_holdings` (lines 108-172).  `page` is the
outcome of the HTTP GET and the regex extractions (`none` models a
raised network error, absorbed by the `except`); `fetch` is the
per-stock `get_stock_price_change` as a string-valued oracle. -/
def get_fund_holdings (fund_code : String) (top_n : Int)
    (page : Option HoldingsPage) (fetch : String → String) : Option FundReport :=
  match page with
  | none => none
  | some p =>
    if p.status ≠ 200 then none
    else
      match buildHoldings fetch (effectiveRows p.rows top_n) with
      | none => none
      | some holdings =>
        if holdings.isEmpty then none
        else
          some { fund_info := { name := p.fundNameMatch.getD "未知基金", code := fund_code }
                 report_date := p.dateMatch.getD "未知"
                 holdings := holdings }

/-! ## OutputFormatter: `format_holdings_output` (lines 174-194) -/

/-- Python `f"{s:<w}"`: left-justify to width `w` with spaces
(character count, as Python's). -/
def ljust (s : String) (w : Nat) : String :=
  s ++ String.mk (List.replicate (w - s.length) ' ')

/-- One table row of the report (line 190), rank `i` starting at 1. -/
def holdingRow (p : Nat × Holding) : String :=
  ljust (toString p.1) 4 ++ " " ++ ljust p.2.stock_code 10 ++ " "
    ++ ljust p.2.stock_name 12 ++ " " ++ ljust (fmt2 p.2.proportion) 12 ++ " "
    ++ ljust p.2.change_percent 10 ++ "\n"

/-- Embedding of `format_holdings_output` (lines 174-194): the fixed
advisory on a missing report, otherwise the header, estimate line,
ranked fixed-width table and footnote. -/
def format_holdings_output (result : Option FundReport) : String :=
  match result with
  | none => "未找到基金持仓数据。请检查基金代码是否正确，或该基金可能暂无持仓数据（如货币基金）。"
  | some r =>
    "基金名称: " ++ r.fund_info.name ++ " (" ++ r.fund_info.code ++ ")\n"
      ++ "报告期: " ++ r.report_date ++ "\n"
      ++ "基金估值预测涨跌幅: " ++ calculate_fund_estimate r.holdings ++ "\n"
      ++ String.mk (List.replicate 70 '=') ++ "\n"
      ++ ljust "排名" 4 ++ " " ++ ljust "股票代码" 10 ++ " " ++ ljust "股票名称" 12
      ++ " " ++ ljust "持仓比例(%)" 12 ++ " " ++ ljust "涨跌幅度" 10 ++ "\n"
      ++ String.mk (List.replicate 70 '-') ++ "\n"
      ++ String.join ((List.enumFrom 1 r.holdings).map holdingRow)
      ++ "\n注: 数据来源于天天基金网，显示最新公布的前" ++ toString r.holdings.length
      ++ "大重仓股。涨跌幅度为当前实时数据。\n"
      ++ "基金估值预测基于重仓股的加权平均涨跌幅计算，仅供参考，实际净值以基金公司公布为准。\n"

/-- Membership test for a character segment, used to state that the
advisory contains the money-market-fund caveat. -/
def listStarts : List Char → List Char → Bool
  | [], _ => true
  | _ :: _, [] => false
  | p :: ps, c :: cs => p == c && listStarts ps cs

/-- `listHasSeg pat s` holds when `pat` occurs contiguously in `s`. -/
def listHasSeg (pat : List Char) : List Char → Bool
  | [] => listStarts pat []
  | c :: cs => listStarts pat (c :: cs) || listHasSeg pat cs

/-! ## Helper lemmas -/

/-- A string starting with `c` does not start with `d ≠ c`. -/
lemma startsWithChar_unique {s : String} {c d : Char}
    (h : startsWithChar s c = true) (hne : c ≠ d) : startsWithChar s d = false := by
  unfold startsWithChar at h ⊢
  cases hs : s.data with
  | nil => rfl
  | cons e tl =>
    rw [hs] at h
    simp only [beq_iff_eq] at h
    subst h
    simp [beq_iff_eq, hne]

/-- Routing: a code starting with `'6'` issues the Shanghai request. -/
lemma gspc_route_sh {code : String} (net : Option QuoteResp)
    (h : startsWithChar code '6' = true) :
    get_stock_price_change code net = fetchQuote code "sh" net := by
  unfold get_stock_price_change
  rw [if_pos h]

/-- Routing: a code starting with `'0'` or `'3'` issues the Shenzhen
request. -/
lemma gspc_route_sz {code : String} (net : Option QuoteResp)
    (h : startsWithChar code '0' = true ∨ startsWithChar code '3' = true) :
    get_stock_price_change code net = fetchQuote code "sz" net := by
  have h6 : startsWithChar code '6' = false := by
    rcases h with h | h
    · exact startsWithChar_unique h (by decide)
    · exact startsWithChar_unique h (by decide)
  unfold get_stock_price_change
  rw [h6]
  have hor : (startsWithChar code '0' || startsWithChar code '3') = true := by
    rcases h with h | h <;> simp [h]
  simp [hor]

/-- Routing: a code starting with none of `'6'`, `'0'`, `'3'` is
rejected without a request. -/
lemma gspc_reject {code : String} (net : Option QuoteResp)
    (h6 : startsWithChar code '6' = false)
    (h0 : startsWithChar code '0' = false)
    (h3 : startsWithChar code '3' = false) :
    get_stock_price_change code net =
      { change := "--", requested := false, symbol := none } := by
  unfold get_stock_price_change
  rw [h6, h0, h3]
  rfl

/-- Every failure path of the quote processing yields the sentinel. -/
lemma quoteChange_fail (net : Option QuoteResp)
    (hH : net = none
      ∨ ∃ r, net = some r ∧
          (r.status ≠ 200
            ∨ firstQuoted r.text.data = none
            ∨ ∃ rec, firstQuoted r.text.data = some rec ∧
                ((splitTilde rec).length < 6
                  ∨ parseFloat ((splitTilde rec).getD 5 []) = none))) :
    quoteChange net = "--" := by
  rcases hH with rfl | ⟨r, rfl, hr⟩
  · rfl
  · simp only [quoteChange]
    rcases hr with hs | hq | ⟨rec, hq, hrest⟩
    · rw [if_pos hs]
    · by_cases hst : r.status ≠ 200
      · rw [if_pos hst]
      · rw [if_neg hst, hq]
    · by_cases hst : r.status ≠ 200
      · rw [if_pos hst]
      · rw [if_neg hst, hq]
        rcases hrest with hlen | hpf
        · simp only [hlen, if_true]
        · by_cases hlen : (splitTilde rec).length < 6
          · simp only [hlen, if_true]
          · simp only [hlen, if_false, hpf]

/-- The success path of the quote processing: status 200, a quoted
record with at least six tilde-separated fields whose index-5 field
parses, yields the formatted value. -/
lemma quoteChange_success (r : QuoteResp) (rec : List Char) (x : Rat)
    (hst : r.status = 200)
    (hq : firstQuoted r.text.data = some rec)
    (hlen : 6 ≤ (splitTilde rec).length)
    (hpf : parseFloat ((splitTilde rec).getD 5 []) = some x) :
    quoteChange (some r) = signedPct x := by
  simp only [quoteChange]
  rw [if_neg (by omega)]
  simp only [hq]
  rw [if_neg (by omega)]
  simp only [hpf]

/-- A holding is unusable exactly when its change string is the
sentinel or fails numeric parsing. -/
lemma usableChange_eq_none (h : Holding) :
    usableChange h = none ↔
      (h.change_percent = "--"
        ∨ parseFloat (stripPlusPct h.change_percent.data) = none) := by
  unfold usableChange
  by_cases hs : h.change_percent = "--" <;> simp [hs]

/-- Step action on an unusable holding. -/
lemma estStep_none (a b : Rat) (h : Holding) (hc : usableChange h = none) :
    estStep (a, b) h = (a, b) := by
  unfold estStep
  unfold usableChange at hc
  by_cases hs : h.change_percent = "--"
  · rw [if_pos hs]
  · rw [if_neg hs]
    rw [if_neg hs] at hc
    rw [hc]

/-- Step action on a usable holding. -/
lemma estStep_some (a b : Rat) (h : Holding) (v : Rat)
    (hc : usableChange h = some v) :
    estStep (a, b) h = (a + h.proportion, b + h.proportion * v) := by
  unfold estStep
  unfold usableChange at hc
  by_cases hs : h.change_percent = "--"
  · rw [if_pos hs] at hc
    exact absurd hc (by simp)
  · rw [if_neg hs]
    rw [if_neg hs] at hc
    rw [hc]

/-- `totalWeight` over a cons with an unusable head. -/
lemma totalWeight_cons_none {h : Holding} (t : List Holding)
    (hc : usableChange h = none) :
    totalWeight (h :: t) = totalWeight t := by
  simp [totalWeight, contrib, List.filterMap_cons, hc]

/-- `totalWeight` over a cons with a usable head. -/
lemma totalWeight_cons_some {h : Holding} (t : List Holding) {v : Rat}
    (hc : usableChange h = some v) :
    totalWeight (h :: t) = h.proportion + totalWeight t := by
  simp [totalWeight, contrib, List.filterMap_cons, hc]

/-- `weightedChange` over a cons with an unusable head. -/
lemma weightedChange_cons_none {h : Holding} (t : List Holding)
    (hc : usableChange h = none) :
    weightedChange (h :: t) = weightedChange t := by
  simp [weightedChange, contrib, List.filterMap_cons, hc]

/-- `weightedChange` over a cons with a usable head. -/
lemma weightedChange_cons_some {h : Holding} (t : List Holding) {v : Rat}
    (hc : usableChange h = some v) :
    weightedChange (h :: t) = h.proportion * v + weightedChange t := by
  simp [weightedChange, contrib, List.filterMap_cons, hc]

/-- The accumulator loop computes the two sums of the spec. -/
lemma estimate_fold (l : List Holding) :
    ∀ a b : Rat, l.foldl estStep (a, b) = (a + totalWeight l, b + weightedChange l) := by
  induction l with
  | nil =>
    intro a b
    simp [totalWeight, weightedChange, contrib]
  | cons h t ih =>
    intro a b
    rw [List.foldl_cons]
    cases hc : usableChange h with
    | none =>
      rw [estStep_none a b h hc, ih a b,
        totalWeight_cons_none t hc, weightedChange_cons_none t hc]
    | some v =>
      rw [estStep_some a b h v hc, ih _ _,
        totalWeight_cons_some t hc, weightedChange_cons_some t hc]
      simp only [Prod.mk.injEq]
      constructor <;> ring

/-- `calculate_fund_estimate` agrees with the spec-level description. -/
lemma calc_eq_spec (l : List Holding) :
    calculate_fund_estimate l = estimateSpec l := by
  unfold calculate_fund_estimate estimateSpec
  rw [estimate_fold l 0 0]
  simp


/-! ## Claim theorems -/

set_option maxRecDepth 8192 in
/-- C1: `calculate_fund_estimate` accumulates `total_weight` as the sum
of `proportion` and `weighted_change` as the sum of `proportion` times
the parsed change over exactly the holdings whose `change_percent` is
not `"--"` and parses as a number, and when the total weight is nonzero
returns `weighted_change / total_weight` in signed two-decimal
percentage form; on the three-holding scenario it returns `"+0.00%"`. -/
theorem C1_estimate_weighted_average :
    (∀ l : List Holding, calculate_fund_estimate l = estimateSpec l)
    ∧ calculate_fund_estimate
        [{ stock_code := "", stock_name := "", proportion := 10, change_percent := "+2.00%" },
         { stock_code := "", stock_name := "", proportion := 5, change_percent := "-4.00%" },
         { stock_code := "", stock_name := "", proportion := 3, change_percent := "--" }]
      = "+0.00%" :=
  ⟨calc_eq_spec, by with_unfolding_all decide⟩

/-- C6: on any list in which every holding's change string is the
sentinel or fails numeric parsing (the empty list included),
`calculate_fund_estimate` returns the fixed cannot-estimate message. -/
theorem C6_no_valid_data_message (l : List Holding)
    (hl : ∀ h ∈ l, h.change_percent = "--"
        ∨ parseFloat (stripPlusPct h.change_percent.data) = none) :
    calculate_fund_estimate l = "无法预测（无有效涨跌数据）" := by
  rw [calc_eq_spec]
  have hnil : l.filterMap contrib = [] := by
    rw [List.filterMap_eq_nil_iff]
    intro h hm
    have hn : usableChange h = none := (usableChange_eq_none h).mpr (hl h hm)
    simp [contrib, hn]
  have hT : totalWeight l = 0 := by simp [totalWeight, hnil]
  simp [estimateSpec, hT]

/-- Witness for C6 at the empty list and at an all-unusable list. -/
theorem C6_no_valid_data_message_witness :
    calculate_fund_estimate [] = "无法预测（无有效涨跌数据）"
    ∧ calculate_fund_estimate
        [{ stock_code := "", stock_name := "", proportion := 3, change_percent := "--" },
         { stock_code := "", stock_name := "", proportion := 4, change_percent := "N/A" }]
      = "无法预测（无有效涨跌数据）" :=
  ⟨C6_no_valid_data_message [] (by decide),
   C6_no_valid_data_message _ (by decide)⟩

/-- C7: `calculate_fund_estimate` is invariant under permutation of its
input list (both accumulators are sums over the usable holdings). -/
theorem C7_estimate_perm_invariant (l₁ l₂ : List Holding) (hp : l₁.Perm l₂) :
    calculate_fund_estimate l₁ = calculate_fund_estimate l₂ := by
  rw [calc_eq_spec, calc_eq_spec]
  have hT : totalWeight l₁ = totalWeight l₂ :=
    ((hp.filterMap contrib).map Prod.fst).sum_eq
  have hW : weightedChange l₁ = weightedChange l₂ :=
    ((hp.filterMap contrib).map Prod.snd).sum_eq
  unfold estimateSpec
  rw [hT, hW]

/-- Witness for C7 at a concrete two-element swap. -/
theorem C7_estimate_perm_invariant_witness :
    calculate_fund_estimate
        [{ stock_code := "", stock_name := "", proportion := 10, change_percent := "+2.00%" },
         { stock_code := "", stock_name := "", proportion := 5, change_percent := "-4.00%" }]
    = calculate_fund_estimate
        [{ stock_code := "", stock_name := "", proportion := 5, change_percent := "-4.00%" },
         { stock_code := "", stock_name := "", proportion := 10, change_percent := "+2.00%" }] :=
  C7_estimate_perm_invariant _ _
    (List.Perm.swap
      ({ stock_code := "", stock_name := "", proportion := 5, change_percent := "-4.00%" } : Holding)
      ({ stock_code := "", stock_name := "", proportion := 10, change_percent := "+2.00%" } : Holding) [])

/-- C3: market routing of `get_stock_price_change`: a leading `'6'`
requests the Shanghai symbol `s_sh{code}`, a leading `'0'` or `'3'` the
Shenzhen symbol `s_sz{code}`, and any other leading digit returns the
sentinel with no request issued. -/
theorem C3_market_routing (code : String) (net : Option QuoteResp) :
    (startsWithChar code '6' = true →
      (get_stock_price_change code net).symbol = some ("s_sh" ++ code)
      ∧ (get_stock_price_change code net).requested = true)
    ∧ ((startsWithChar code '0' = true ∨ startsWithChar code '3' = true) →
      (get_stock_price_change code net).symbol = some ("s_sz" ++ code)
      ∧ (get_stock_price_change code net).requested = true)
    ∧ (∀ d : Char, d.isDigit = true → startsWithChar code d = true →
        d ≠ '6' → d ≠ '0' → d ≠ '3' →
        get_stock_price_change code net
          = ({ change := "--", requested := false, symbol := none } : FetchOutcome)) := by
  refine ⟨?_, ?_, ?_⟩
  · intro h
    rw [gspc_route_sh net h]
    exact ⟨rfl, rfl⟩
  · intro h
    rw [gspc_route_sz net h]
    exact ⟨rfl, rfl⟩
  · intro d _ hsd h6 h0 h3
    exact gspc_reject net (startsWithChar_unique hsd h6)
      (startsWithChar_unique hsd h0) (startsWithChar_unique hsd h3)

/-- Witness for C3 at one code per routing class. -/
theorem C3_market_routing_witness :
    (get_stock_price_change "600000" none).symbol = some ("s_sh" ++ "600000")
    ∧ (get_stock_price_change "000001" none).symbol = some ("s_sz" ++ "000001")
    ∧ (get_stock_price_change "300750" none).symbol = some ("s_sz" ++ "300750")
    ∧ get_stock_price_change "700001" none
        = ({ change := "--", requested := false, symbol := none } : FetchOutcome) :=
  ⟨((C3_market_routing "600000" none).1 (by decide)).1,
   ((C3_market_routing "000001" none).2.1 (Or.inl (by decide))).1,
   ((C3_market_routing "300750" none).2.1 (Or.inr (by decide))).1,
   (C3_market_routing "700001" none).2.2 '7' (by decide) (by decide)
     (by decide) (by decide) (by decide)⟩

/-- C10: every input whose first character is not `'6'`, `'0'` or `'3'`
— the empty string and non-digit-initial strings included — gets the
sentinel back from `get_stock_price_change` with no request issued. -/
theorem C10_unrouted_sentinel_no_request (code : String) (net : Option QuoteResp)
    (h6 : startsWithChar code '6' = false)
    (h0 : startsWithChar code '0' = false)
    (h3 : startsWithChar code '3' = false) :
    get_stock_price_change code net
      = ({ change := "--", requested := false, symbol := none } : FetchOutcome) :=
  gspc_reject net h6 h0 h3

/-- Witness for C10 at the empty string and a non-digit code. -/
theorem C10_unrouted_sentinel_no_request_witness :
    get_stock_price_change "" none
      = ({ change := "--", requested := false, symbol := none } : FetchOutcome)
    ∧ get_stock_price_change "abc" (some { status := 200, text := "v=\"1~2~3~4~5~6.0~\";" })
      = ({ change := "--", requested := false, symbol := none } : FetchOutcome) :=
  ⟨C10_unrouted_sentinel_no_request "" none (by decide) (by decide) (by decide),
   C10_unrouted_sentinel_no_request "abc" _ (by decide) (by decide) (by decide)⟩

/-- C4: `get_stock_price_change` never propagates an error: on every
quote-endpoint failure — network error or timeout (`none` outcome),
non-200 status, no quoted record in the body, a record with fewer than
six tilde-separated fields, or an index-5 field that fails numeric
parsing — it returns the sentinel `"--"`. -/
theorem C4_all_failures_sentinel (code : String) (net : Option QuoteResp)
    (hH : net = none
      ∨ ∃ r, net = some r ∧
          (r.status ≠ 200
            ∨ firstQuoted r.text.data = none
            ∨ ∃ rec, firstQuoted r.text.data = some rec ∧
                ((splitTilde rec).length < 6
                  ∨ parseFloat ((splitTilde rec).getD 5 []) = none))) :
    (get_stock_price_change code net).change = "--" := by
  cases h6 : startsWithChar code '6' with
  | true =>
    rw [gspc_route_sh net h6]
    exact quoteChange_fail net hH
  | false =>
    cases h0 : startsWithChar code '0' with
    | true =>
      rw [gspc_route_sz net (Or.inl h0)]
      exact quoteChange_fail net hH
    | false =>
      cases h3 : startsWithChar code '3' with
      | true =>
        rw [gspc_route_sz net (Or.inr h3)]
        exact quoteChange_fail net hH
      | false =>
        rw [gspc_reject net h6 h0 h3]

/-- Witness for C4, one instance per failure path. -/
theorem C4_all_failures_sentinel_witness :
    (get_stock_price_change "600000" none).change = "--"
    ∧ (get_stock_price_change "600000" (some { status := 404, text := "x" })).change = "--"
    ∧ (get_stock_price_change "600000" (some { status := 200, text := "no quotes here" })).change = "--"
    ∧ (get_stock_price_change "600000" (some { status := 200, text := "x=\"1~2\";" })).change = "--"
    ∧ (get_stock_price_change "600000" (some { status := 200, text := "x=\"a~b~c~d~e~f~g\";" })).change = "--" :=
  ⟨C4_all_failures_sentinel "600000" none (Or.inl rfl),
   C4_all_failures_sentinel "600000" _ (Or.inr ⟨_, rfl, Or.inl (by decide)⟩),
   C4_all_failures_sentinel "600000" _ (Or.inr ⟨_, rfl, Or.inr (Or.inl (by decide))⟩),
   C4_all_failures_sentinel "600000" _
     (Or.inr ⟨_, rfl, Or.inr (Or.inr ⟨"1~2".data, by decide, Or.inl (by decide)⟩)⟩),
   C4_all_failures_sentinel "600000" _
     (Or.inr ⟨_, rfl, Or.inr (Or.inr ⟨"a~b~c~d~e~f~g".data, by decide, Or.inr (by decide)⟩)⟩)⟩

set_option maxRecDepth 8192 in
/-- C5: on a 200 response whose body holds a quoted tilde-delimited
record with at least six fields whose index-5 (0-based) field parses,
the routed code's result is that value in signed two-decimal percentage
form; for the quoted 药明康德 record the result is `"-2.10%"`. -/
theorem C5_success_path_format :
    (∀ (code : String) (r : QuoteResp) (rec : List Char) (x : Rat),
      (startsWithChar code '6' = true ∨ startsWithChar code '0' = true
        ∨ startsWithChar code '3' = true) →
      r.status = 200 →
      firstQuoted r.text.data = some rec →
      6 ≤ (splitTilde rec).length →
      parseFloat ((splitTilde rec).getD 5 []) = some x →
      (get_stock_price_change code (some r)).change = signedPct x)
    ∧ (get_stock_price_change "603259"
        (some { status := 200,
                text := "v_s_sh603259=\"1~药明康德~603259~93.20~-2.00~-2.10~362993~342464~~2780.86~GP-A~\";" })).change
      = "-2.10%" := by
  constructor
  · intro code r rec x hroute hst hq hlen hpf
    rcases hroute with h | h | h
    · rw [gspc_route_sh _ h]
      exact quoteChange_success r rec x hst hq hlen hpf
    · rw [gspc_route_sz _ (Or.inl h)]
      exact quoteChange_success r rec x hst hq hlen hpf
    · rw [gspc_route_sz _ (Or.inr h)]
      exact quoteChange_success r rec x hst hq hlen hpf
  · with_unfolding_all decide

set_option maxRecDepth 8192 in
/-- Witness for C5: the universal part applied to the scenario. -/
theorem C5_success_path_format_witness :
    (get_stock_price_change "603259"
      (some { status := 200,
              text := "v_s_sh603259=\"1~药明康德~603259~93.20~-2.00~-2.10~362993~342464~~2780.86~GP-A~\";" })).change
    = signedPct (-(21 : Rat) / 10) :=
  C5_success_path_format.1 "603259" _
    "1~药明康德~603259~93.20~-2.00~-2.10~362993~342464~~2780.86~GP-A~".data
    (-(21 : Rat) / 10) (Or.inl (by decide)) rfl (by decide) (by decide)
    (by with_unfolding_all decide)

/-- C2 counterexample: the claim "the number of extracted rows
`get_fund_holdings` keeps is `clamp(top_n, 1, 20)`" fails at
`top_n = 0`: with one extracted row the function keeps zero rows (and
hence returns no report), while the claimed clamp is 1. -/
theorem C2_clamp_counterexample :
    (effectiveRows [{ code := "600519", name := "GZMT", proportionStr := "9.50", marketValue := "1" }] 0).length = 0
    ∧ max (min (0 : Int) 20) 1 = 1
    ∧ get_fund_holdings "005827" 0
        (some { status := 200, fundNameMatch := none, dateMatch := none,
                rows := [{ code := "600519", name := "GZMT", proportionStr := "9.50", marketValue := "1" }] })
        (fun _ => "--") = none :=
  ⟨by decide, by decide, by decide⟩

/-- C2 (amended): `get_fund_holdings` only caps from above: a `top_n`
greater than 20 keeps `min 20` of the extracted rows and behaves
exactly as `top_n = 20`, while a `top_n` of 0 keeps no rows — the
raise-to-1 half of the clamp is performed by the caller
(`extract_fund_code_and_top_n`), not by `get_fund_holdings`. -/
theorem C2_top_n_capped_at_20 :
    (∀ (rows : List RawRow) (t : Int), 20 < t →
        (effectiveRows rows t).length = min 20 rows.length)
    ∧ (∀ rows : List RawRow, effectiveRows rows 0 = [])
    ∧ (∀ (fc : String) (fetch : String → String) (p : HoldingsPage) (t : Int), 20 < t →
        get_fund_holdings fc t (some p) fetch = get_fund_holdings fc 20 (some p) fetch) := by
  refine ⟨?_, ?_, ?_⟩
  · intro rows t ht
    have hm : min t 20 = 20 := by omega
    unfold effectiveRows pySliceTo
    rw [hm, if_pos (by decide)]
    rw [List.length_take]
    rfl
  · intro rows
    have hm : min (0 : Int) 20 = 0 := by decide
    unfold effectiveRows pySliceTo
    rw [hm, if_pos (by decide)]
    simp
  · intro fc fetch p t ht
    have hm : min t 20 = min (20 : Int) 20 := by omega
    simp only [get_fund_holdings, effectiveRows]
    rw [hm]

/-- Witness for C2 (amended) at `top_n = 25`. -/
theorem C2_top_n_capped_at_20_witness :
    (effectiveRows [{ code := "600519", name := "GZMT", proportionStr := "9.50", marketValue := "1" }] 25).length
      = min 20 [({ code := "600519", name := "GZMT", proportionStr := "9.50", marketValue := "1" } : RawRow)].length
    ∧ effectiveRows [{ code := "600519", name := "GZMT", proportionStr := "9.50", marketValue := "1" }] 0 = []
    ∧ get_fund_holdings "005827" 25
        (some { status := 200, fundNameMatch := none, dateMatch := none,
                rows := [{ code := "600519", name := "GZMT", proportionStr := "9.50", marketValue := "1" }] })
        (fun _ => "--")
      = get_fund_holdings "005827" 20
        (some { status := 200, fundNameMatch := none, dateMatch := none,
                rows := [{ code := "600519", name := "GZMT", proportionStr := "9.50", marketValue := "1" }] })
        (fun _ => "--") :=
  ⟨C2_top_n_capped_at_20.1 _ 25 (by decide),
   C2_top_n_capped_at_20.2.1 _,
   C2_top_n_capped_at_20.2.2 "005827" _ _ 25 (by decide)⟩

/-- C9: on a 200 page whose extraction found exactly one holding row
whose weight string parses, `get_fund_holdings` returns a report with
exactly one holding, carrying the row's stock code and name as strings
and the weight as a numeric proportion. -/
theorem C9_single_row_report (fc : String) (fetch : String → String)
    (nm dm : Option String) (scode sname propStr mv : String) (x : Rat)
    (hx : parseFloat propStr.data = some x) :
    get_fund_holdings fc 20
      (some { status := 200, fundNameMatch := nm, dateMatch := dm,
              rows := [{ code := scode, name := sname, proportionStr := propStr, marketValue := mv }] })
      fetch
    = some { fund_info := { name := nm.getD "未知基金", code := fc }
             report_date := dm.getD "未知"
             holdings := [{ stock_code := scode, stock_name := sname,
                            proportion := x, change_percent := fetch scode }] } := by
  simp only [get_fund_holdings]
  rw [if_neg (by decide)]
  have hrows : effectiveRows
      [({ code := scode, name := sname, proportionStr := propStr, marketValue := mv } : RawRow)] 20
      = [{ code := scode, name := sname, proportionStr := propStr, marketValue := mv }] := rfl
  rw [hrows]
  simp [buildHoldings, hx]

/-- Witness for C9 at a concrete page. -/
theorem C9_single_row_report_witness :
    get_fund_holdings "005827" 20
      (some { status := 200, fundNameMatch := some "F", dateMatch := some "2024-06-30",
              rows := [{ code := "600519", name := "贵州茅台", proportionStr := "9.50", marketValue := "1" }] })
      (fun _ => "+1.00%")
    = some { fund_info := { name := "F", code := "005827" }
             report_date := "2024-06-30"
             holdings := [{ stock_code := "600519", stock_name := "贵州茅台",
                            proportion := (19 : Rat) / 2, change_percent := "+1.00%" }] } :=
  C9_single_row_report "005827" (fun _ => "+1.00%") (some "F") (some "2024-06-30")
    "600519" "贵州茅台" "9.50" "1" ((19 : Rat) / 2) (by with_unfolding_all decide)

/-- C8: given the unavailable result (`get_fund_holdings` returned no
report, e.g. after a non-200 response for fund code `"000000"`),
`format_holdings_output` returns the one fixed advisory string, which
contains the money-market-fund caveat, whatever the cause. -/
theorem C8_unavailable_advisory :
    format_holdings_output none
      = "未找到基金持仓数据。请检查基金代码是否正确，或该基金可能暂无持仓数据（如货币基金）。"
    ∧ listHasSeg "货币基金".data (format_holdings_output none).data = true
    ∧ (∀ fetch : String → String,
        format_holdings_output
          (get_fund_holdings "000000" 20
            (some { status := 404, fundNameMatch := none, dateMatch := none, rows := [] }) fetch)
        = format_holdings_output none) := by
  refine ⟨rfl, by decide, ?_⟩
  intro fetch
  rfl

end FundHoldings
